import Mathlib

/-!
Verification of the subprocess orchestration and structured-output extraction
layer of the meal-planner repository (`claude_client.py`), via a shallow
embedding in Lean 4.

The embedding follows the source module `claude_client.py`:
* a JSON value model and an executable parser modelling Python's
  `json.loads` (objects with dict semantics: duplicate keys collapse,
  insertion order kept; `NaN`/`Infinity`/`-Infinity` accepted; numbers kept
  as their lexeme since no claim depends on numeric value),
* `get_claude_env` (environment / PATH construction),
* the post-wait control flow of `call_claude` (timeout, exit-code and
  extraction handling), with the performed effects (kill, thread joins,
  error logs) recorded as an explicit action trace,
* `validate_meals`.
-/

set_option maxRecDepth 4000

namespace MealPlanner

/-! ## JSON value model -/

/-- A JSON value as produced by Python's `json.loads`.  Numbers are kept as
their source lexeme (e.g. `"3.5"`, `"NaN"`): no claim depends on numeric
interpretation, only on the value being carried around unchanged. -/
inductive JsonVal where
  | null
  | bool (b : Bool)
  | num (raw : String)
  | str (s : String)
  | arr (elems : List JsonVal)
  | obj (fields : List (String × JsonVal))

/-- Skip JSON whitespace (space, tab, newline, carriage return), as Python's
`json` decoder does between tokens. -/
def skipWs : List Char → List Char
  | c :: cs => if c = ' ' ∨ c = '\t' ∨ c = '\n' ∨ c = '\r' then skipWs cs else c :: cs
  | [] => []

/-- Value of a hexadecimal digit, if the character is one. -/
def hexVal (c : Char) : Option Nat :=
  if '0' ≤ c ∧ c ≤ '9' then some (c.toNat - 48)
  else if 'a' ≤ c ∧ c ≤ 'f' then some (c.toNat - 87)
  else if 'A' ≤ c ∧ c ≤ 'F' then some (c.toNat - 55)
  else none

/-- Body of a JSON string literal (after the opening quote): returns the
decoded characters and the input remaining after the closing quote.
Raw control characters are rejected, as in Python's strict decoder. -/
def parseJStr (acc : List Char) : List Char → Option (String × List Char)
  | [] => none
  | '"' :: r => some (String.mk acc.reverse, r)
  | '\\' :: r =>
    match r with
    | 'u' :: h1 :: h2 :: h3 :: h4 :: r2 =>
      match hexVal h1, hexVal h2, hexVal h3, hexVal h4 with
      | some a, some b, some c, some d =>
        parseJStr (Char.ofNat (((a * 16 + b) * 16 + c) * 16 + d) :: acc) r2
      | _, _, _, _ => none
    | '"' :: r2 => parseJStr ('"' :: acc) r2
    | '\\' :: r2 => parseJStr ('\\' :: acc) r2
    | '/' :: r2 => parseJStr ('/' :: acc) r2
    | 'b' :: r2 => parseJStr ('\x08' :: acc) r2
    | 'f' :: r2 => parseJStr ('\x0c' :: acc) r2
    | 'n' :: r2 => parseJStr ('\n' :: acc) r2
    | 'r' :: r2 => parseJStr ('\r' :: acc) r2
    | 't' :: r2 => parseJStr ('\t' :: acc) r2
    | _ => none
  | c :: r => if c.toNat < 32 then none else parseJStr (c :: acc) r

/-- Longest leading run of decimal digits. -/
def takeDigits : List Char → List Char × List Char
  | c :: cs =>
    if c.isDigit then
      let p := takeDigits cs
      (c :: p.1, p.2)
    else ([], c :: cs)
  | [] => ([], [])

/-- Integer part of a JSON number: `0`, or a nonzero digit followed by
digits (leading zeros rejected, as in the JSON grammar). -/
def parseIntPart : List Char → Option (List Char × List Char)
  | '0' :: cs => some (['0'], cs)
  | c :: cs =>
    if c.isDigit then
      let p := takeDigits cs
      some (c :: p.1, p.2)
    else none
  | [] => none

/-- Optional fractional part `.digits` of a JSON number. -/
def parseFracPart : List Char → Option (List Char × List Char)
  | '.' :: cs =>
    let p := takeDigits cs
    if p.1.isEmpty then none else some ('.' :: p.1, p.2)
  | cs => some ([], cs)

/-- Optional exponent part `[eE][+-]?digits` of a JSON number. -/
def parseExpPart : List Char → Option (List Char × List Char)
  | c :: cs =>
    if c = 'e' ∨ c = 'E' then
      match cs with
      | s :: cs2 =>
        if s = '+' ∨ s = '-' then
          let p := takeDigits cs2
          if p.1.isEmpty then none else some (c :: s :: p.1, p.2)
        else
          let p := takeDigits cs
          if p.1.isEmpty then none else some (c :: p.1, p.2)
      | [] => none
    else some ([], c :: cs)
  | [] => some ([], [])

/-- A JSON number token (or one of the Python-accepted constants `NaN`,
`Infinity`, `-Infinity`), returned as its lexeme. -/
def parseNumber (cs : List Char) : Option (String × List Char) :=
  match cs with
  | 'N' :: 'a' :: 'N' :: r => some ("NaN", r)
  | 'I' :: 'n' :: 'f' :: 'i' :: 'n' :: 'i' :: 't' :: 'y' :: r => some ("Infinity", r)
  | '-' :: 'I' :: 'n' :: 'f' :: 'i' :: 'n' :: 'i' :: 't' :: 'y' :: r => some ("-Infinity", r)
  | _ =>
    let sign : List Char × List Char :=
      match cs with
      | '-' :: r => (['-'], r)
      | _ => ([], cs)
    match parseIntPart sign.2 with
    | none => none
    | some (ip, cs2) =>
      match parseFracPart cs2 with
      | none => none
      | some (fp, cs3) =>
        match parseExpPart cs3 with
        | none => none
        | some (ep, cs4) => some (String.mk (sign.1 ++ ip ++ fp ++ ep), cs4)

/-- Insert a key/value pair with Python-dict semantics: an existing key keeps
its position and gets the new value, a new key is appended. -/
def dictInsert (fields : List (String × JsonVal)) (k : String) (v : JsonVal) :
    List (String × JsonVal) :=
  if fields.any (fun kv => kv.1 == k) then
    fields.map (fun kv => if kv.1 == k then (k, v) else kv)
  else fields ++ [(k, v)]

mutual

/-- Parse one JSON value (fuel-indexed recursion; the fuel only bounds
nesting depth and is set larger than the input length at the top level). -/
def parseValue : Nat → List Char → Option (JsonVal × List Char)
  | 0, _ => none
  | Nat.succ fuel, cs =>
    match skipWs cs with
    | '{' :: r =>
      (match skipWs r with
       | '}' :: r2 => some (JsonVal.obj [], r2)
       | _ => (parseMembers fuel r []).map (fun p => (JsonVal.obj p.1, p.2)))
    | '[' :: r =>
      (match skipWs r with
       | ']' :: r2 => some (JsonVal.arr [], r2)
       | _ => (parseElems fuel r []).map (fun p => (JsonVal.arr p.1, p.2)))
    | '"' :: r => (parseJStr [] r).map (fun p => (JsonVal.str p.1, p.2))
    | 't' :: 'r' :: 'u' :: 'e' :: r => some (JsonVal.bool true, r)
    | 'f' :: 'a' :: 'l' :: 's' :: 'e' :: r => some (JsonVal.bool false, r)
    | 'n' :: 'u' :: 'l' :: 'l' :: r => some (JsonVal.null, r)
    | cs2 => (parseNumber cs2).map (fun p => (JsonVal.num p.1, p.2))

/-- Parse the members of a JSON object, starting at a key. -/
def parseMembers : Nat → List Char → List (String × JsonVal) →
    Option (List (String × JsonVal) × List Char)
  | 0, _, _ => none
  | Nat.succ fuel, cs, acc =>
    match skipWs cs with
    | '"' :: r =>
      (match parseJStr [] r with
       | none => none
       | some (k, r1) =>
         match skipWs r1 with
         | ':' :: r2 =>
           (match parseValue fuel r2 with
            | none => none
            | some (v, r3) =>
              match skipWs r3 with
              | ',' :: r4 => parseMembers fuel r4 (dictInsert acc k v)
              | '}' :: r4 => some (dictInsert acc k v, r4)
              | _ => none)
         | _ => none)
    | _ => none

/-- Parse the elements of a JSON array, starting at a value. -/
def parseElems : Nat → List Char → List JsonVal → Option (List JsonVal × List Char)
  | 0, _, _ => none
  | Nat.succ fuel, cs, acc =>
    match parseValue fuel cs with
    | none => none
    | some (v, r) =>
      match skipWs r with
      | ',' :: r2 => parseElems fuel r2 (acc ++ [v])
      | ']' :: r2 => some (acc ++ [v], r2)
      | _ => none

end

/-- Model of Python's `json.loads`: parse a single JSON document, allowing
surrounding whitespace; anything left over is an error (`none`). -/
def json_loads (s : String) : Option JsonVal :=
  match parseValue (s.data.length + 1) s.data with
  | none => none
  | some (v, rest) => if (skipWs rest).isEmpty then some v else none

/-! ## Python-style helpers -/

/-- Python's `sep.join(xs)`. -/
def pyJoin (sep : String) : List String → String
  | [] => ""
  | x :: xs => xs.foldl (fun acc y => acc ++ sep ++ y) x

/-- Worker for `pySplitColon`. -/
def splitColonAux : List Char → List Char → List String
  | acc, [] => [String.mk acc.reverse]
  | acc, c :: cs =>
    if c = ':' then String.mk acc.reverse :: splitColonAux [] cs
    else splitColonAux (c :: acc) cs

/-- Python's `s.split(":")` (no collapsing; `""` yields `[""]`). -/
def pySplitColon (s : String) : List String := splitColonAux [] s.data

/-- Python's `s[:n]` on a string: the first `n` characters. -/
def pyTake (n : Nat) (s : String) : String := String.mk (s.data.take n)

/-- Whitespace as stripped by Python's `str.strip()` (ASCII whitespace; the
rare non-ASCII space characters Python also strips are not modelled). -/
def pyIsSpace (c : Char) : Bool :=
  c = ' ' ∨ c = '\t' ∨ c = '\n' ∨ c = '\r' ∨ c = '\x0b' ∨ c = '\x0c'

/-- Truthiness of `s.strip()` in Python: `true` iff some character remains
after stripping whitespace. -/
def pyStripNonempty (s : String) : Bool := s.data.any (fun c => !(pyIsSpace c))

/-- Python collapses a JSON `null` to `None`; an `Option` holding `null`
behaves exactly like an absent value in the source's `is None` checks. -/
def pyOpt : Option JsonVal → Option JsonVal
  | some JsonVal.null => none
  | o => o

/-- Python's `d.get(k)` on a dict represented as an assoc list. -/
def dictGet (fields : List (String × JsonVal)) (k : String) : Option JsonVal :=
  (fields.find? (fun kv => kv.1 == k)).map Prod.snd

/-! ## Configuration constants (`config.py`) -/

def NUM_MEALS : Nat := 4
def NUM_NOTION_MEALS : Nat := 3
def NUM_WEB_MEALS : Nat := 1
def CLAUDE_TIMEOUT_SECONDS : Nat := 900

/-! ## Response extraction (`call_claude`, lines 112-135) -/

/-- The distinct failures `call_claude` can raise. `exitCode` carries the
child's return code and the truncated stderr text embedded in the
`RuntimeError` message; `noStructuredOutput` carries `list(response.keys())`. -/
inductive CallError where
  | timeoutExpired
  | exitCode (code : Int) (stderrExcerpt : String)
  | jsonParseError
  | attributeError
  | noStructuredOutput (keys : List String)
  deriving DecidableEq

/-- The fallback on the `"result"` key (lines 117-125): a dict is used
directly; a string whose `strip()` is truthy gets a nested `json.loads`
whose failure is swallowed (`except ... pass`); anything else (absent key
defaults to `""`, or a non-dict non-str value) leaves the payload absent. -/
def fallbackResult : Option JsonVal → Option JsonVal
  | some (JsonVal.obj o) => some (JsonVal.obj o)
  | some (JsonVal.str s) => if pyStripNonempty s then pyOpt (json_loads s) else none
  | _ => none

/-- Payload extraction from the parsed envelope (lines 115-135): primary key
`"structured_output"` (a `null` value is `None` in Python, hence treated as
absent), then the `"result"` fallback, else the diagnostic error listing
`list(response.keys())`. -/
def extractFromResponse (response : List (String × JsonVal)) : Except CallError JsonVal :=
  match pyOpt (dictGet response "structured_output") with
  | some v => Except.ok v
  | none =>
    match fallbackResult (dictGet response "result") with
    | some v => Except.ok v
    | none => Except.error (CallError.noStructuredOutput (response.map Prod.fst))

/-- The extraction step of `call_claude` on the captured stdout text
(lines 112-135).  `json.loads` failure is fatal (line 112); a non-object
top-level value makes `response.get` raise `AttributeError` in Python. -/
def extract (stdout_text : String) : Except CallError JsonVal :=
  match json_loads stdout_text with
  | none => Except.error CallError.jsonParseError
  | some (JsonVal.obj fields) => extractFromResponse fields
  | some _ => Except.error CallError.attributeError

/-! ## Process wait control flow (`call_claude`, lines 91-135) -/

/-- Outcome of `proc.wait(timeout=CLAUDE_TIMEOUT_SECONDS)`. -/
inductive WaitResult where
  | timedOut
  | exited (code : Int)
  deriving DecidableEq

/-- Effects performed by `call_claude` after the wait, recorded in program
order: `proc.kill()`, `t.join(timeout=...)` (`none` = unbounded join),
`log.error(...)` (Python's `!r` repr quoting elided; the truncation to 500
characters is kept), and the `json.loads(stdout_text)` call. -/
inductive Action where
  | killProcess
  | joinThread (stream : String) (grace : Option Nat)
  | logError (msg : String)
  | jsonParse
  deriving DecidableEq

/-- Control flow of `call_claude` from `proc.wait` onwards (lines 91-135),
as a function of the wait outcome and the buffers the reader threads
accumulated: the list of effects performed, and the returned payload or
raised error. -/
def callClaudeAfterWait (w : WaitResult) (stdout_chunks : List String)
    (stderr_lines : List String) : List Action × Except CallError JsonVal :=
  match w with
  | WaitResult.timedOut =>
    ([Action.killProcess,
      Action.joinThread "stdout" (some 5),
      Action.joinThread "stderr" (some 5),
      Action.logError ("Claude CLI stdout before timeout: " ++ pyTake 500 (pyJoin "" stdout_chunks)),
      Action.logError ("Claude CLI stderr before timeout: " ++ pyTake 500 (pyJoin " | " stderr_lines))],
     Except.error CallError.timeoutExpired)
  | WaitResult.exited code =>
    if code ≠ 0 then
      ([Action.joinThread "stdout" none, Action.joinThread "stderr" none],
       Except.error (CallError.exitCode code (pyTake 500 (pyJoin " " stderr_lines))))
    else
      ([Action.joinThread "stdout" none, Action.joinThread "stderr" none, Action.jsonParse],
       extract (pyJoin "" stdout_chunks))

/-! ## Environment builder (`get_claude_env`, lines 23-43) -/

/-- Lookup in an environment modelled as an assoc list. -/
def envGet (env : List (String × String)) (k : String) : Option String :=
  (env.find? (fun kv => kv.1 == k)).map Prod.snd

/-- Lookup with a default, Python's `env.get(k, d)`. -/
def envGetD (env : List (String × String)) (k d : String) : String :=
  (envGet env k).getD d

/-- Python's `env[k] = v` on a dict: replace in place, or append. -/
def envSet (env : List (String × String)) (k v : String) : List (String × String) :=
  if env.any (fun kv => kv.1 == k) then
    env.map (fun kv => if kv.1 == k then (k, v) else kv)
  else env ++ [(k, v)]

/-- Python's `env.pop(k, None)`: remove the key. -/
def envPop (env : List (String × String)) (k : String) : List (String × String) :=
  env.filter (fun kv => !(kv.1 == k))

/-- The fixed required PATH entries (lines 26-35), with `home` standing for
`str(Path.home())`. -/
def required_paths (home : String) : List String :=
  [home ++ "/.local/bin",
   "/opt/homebrew/bin",
   "/opt/homebrew/sbin",
   "/usr/local/bin",
   "/usr/bin",
   "/bin",
   "/usr/sbin",
   "/sbin"]

/-- The inherited search path entries: `env.get("PATH", "").split(":")`. -/
def inherited_path (env : List (String × String)) : List String :=
  pySplitColon (envGetD env "PATH" "")

/-- The `existing` list after the insertion loop (lines 36-39): iterate the
required list in reverse, prepending each entry not already present. -/
def claude_path_entries (home : String) (env : List (String × String)) : List String :=
  ((required_paths home).reverse).foldl
    (fun existing p => if p ∈ existing then existing else p :: existing)
    (inherited_path env)

/-- `get_claude_env` (lines 23-43): rebuild PATH from the insertion loop and
remove the `CLAUDECODE` marker variable. -/
def get_claude_env (home : String) (env : List (String × String)) :
    List (String × String) :=
  envPop (envSet env "PATH" (pyJoin ":" (claude_path_entries home env))) "CLAUDECODE"

/-! ## Meal validator (`validate_meals`, lines 138-158) -/

/-- Python's `m.get("source") == tag` where `tag` is a string literal. -/
def mealSourceIs (tag : String) (m : List (String × JsonVal)) : Bool :=
  match dictGet m "source" with
  | some (JsonVal.str s) => s == tag
  | _ => false

/-- `all(k in meal for k in ("recipe_name", "source", "url"))`. -/
def hasRequiredFields (m : List (String × JsonVal)) : Bool :=
  ["recipe_name", "source", "url"].all (fun k => m.any (fun kv => kv.1 == k))

/-- One iteration of the validation loop (lines 152-156), threading the
warning log and the `valid` accumulator (the per-meal repr in the skip
warning is elided). -/
def validateStep (st : List String × List (List (String × JsonVal)))
    (meal : List (String × JsonVal)) :
    List String × List (List (String × JsonVal)) :=
  if hasRequiredFields meal then (st.1, st.2 ++ [meal])
  else (st.1 ++ ["Skipping meal with missing fields"], st.2)

/-- `validate_meals` (lines 138-158): emit the count-mismatch warnings, then
filter on field completeness; returns (warnings, valid meals). -/
def validate_meals_run (meals : List (List (String × JsonVal))) :
    List String × List (List (String × JsonVal)) :=
  let n := meals.length
  let notion := (meals.filter (mealSourceIs "notion")).length
  let web := (meals.filter (mealSourceIs "web")).length
  let countWarnings :=
    (if n ≠ NUM_MEALS then [s!"Expected {NUM_MEALS} total meals, got {n}"] else [])
    ++ (if notion ≠ NUM_NOTION_MEALS then [s!"Expected {NUM_NOTION_MEALS} Notion meals, got {notion}"] else [])
    ++ (if web ≠ NUM_WEB_MEALS then [s!"Expected {NUM_WEB_MEALS} web meals, got {web}"] else [])
  let folded := meals.foldl validateStep ([], [])
  (countWarnings ++ folded.1, folded.2)

/-- The value returned by `validate_meals`. -/
def validate_meals (meals : List (List (String × JsonVal))) :
    List (List (String × JsonVal)) :=
  (validate_meals_run meals).2

/-! ## Spec-side definition for claim C6 -/

/-- Modelled from the spec's words: "a truncated tail of stderr" — the last
(at most) `n` characters of the captured stderr text.  Used only to compare
the spec's claimed truncation with the code's actual one. -/
def spec_tail_trunc (n : Nat) (s : String) : String :=
  String.mk (s.data.drop (s.data.length - n))


/-! ## Helper lemmas -/

/-- A non-null optional JSON value survives the Python `is None` collapse. -/
theorem pyOpt_some_of_ne_null (v : JsonVal) (h : v ≠ JsonVal.null) :
    pyOpt (some v) = some v := by
  cases v <;> first | exact absurd rfl h | rfl

/-- Successful top-level parse to an object hands the fields to the envelope
extraction. -/
theorem extract_obj (s : String) (fields : List (String × JsonVal))
    (h : json_loads s = some (JsonVal.obj fields)) :
    extract s = extractFromResponse fields := by
  unfold extract
  rw [h]

/-- Envelope extraction when the primary key holds a non-null value. -/
theorem extractFromResponse_primary (fields : List (String × JsonVal)) (v : JsonVal)
    (hget : dictGet fields "structured_output" = some v) (hnn : v ≠ JsonVal.null) :
    extractFromResponse fields = Except.ok v := by
  unfold extractFromResponse
  rw [hget, pyOpt_some_of_ne_null v hnn]

/-- Envelope extraction when the primary key yields Python `None`. -/
theorem extractFromResponse_no_primary (fields : List (String × JsonVal))
    (h : pyOpt (dictGet fields "structured_output") = none) :
    extractFromResponse fields
      = match fallbackResult (dictGet fields "result") with
        | some v => Except.ok v
        | none => Except.error (CallError.noStructuredOutput (fields.map Prod.fst)) := by
  unfold extractFromResponse
  rw [h]

/-- The validation loop accumulates exactly the field-complete meals. -/
theorem foldl_validateStep (meals : List (List (String × JsonVal))) :
    ∀ (ws : List String) (acc : List (List (String × JsonVal))),
      (meals.foldl validateStep (ws, acc)).2 = acc ++ meals.filter hasRequiredFields := by
  induction meals with
  | nil => intro ws acc; simp
  | cons m ms ih =>
    intro ws acc
    rw [List.foldl_cons]
    cases h : hasRequiredFields m with
    | true =>
      have hstep : validateStep (ws, acc) m = (ws, acc ++ [m]) := by
        simp [validateStep, h]
      rw [hstep, ih]
      simp [List.filter_cons, h]
    | false =>
      have hstep : validateStep (ws, acc) m
          = (ws ++ ["Skipping meal with missing fields"], acc) := by
        simp [validateStep, h]
      rw [hstep, ih]
      simp [List.filter_cons, h]

/-- The value returned by `validate_meals` is the field-completeness filter. -/
theorem validate_meals_eq_filter (meals : List (List (String × JsonVal))) :
    validate_meals meals = meals.filter hasRequiredFields := by
  unfold validate_meals validate_meals_run
  simpa using foldl_validateStep meals [] []


/-! ## Claim theorems -/

/-- C1: for every stdout text that parses as a JSON object containing the
primary key `"structured_output"` with a (non-null) payload value, the
extraction step of `call_claude` returns exactly that payload unchanged,
without consulting the fallback key (the conclusion holds for every value of
the `"result"` field, which is left fully unconstrained). -/
theorem C1_primary_identity (s : String) (fields : List (String × JsonVal)) (v : JsonVal)
    (hparse : json_loads s = some (JsonVal.obj fields))
    (hget : dictGet fields "structured_output" = some v)
    (hnn : v ≠ JsonVal.null) :
    extract s = Except.ok v := by
  rw [extract_obj s fields hparse]
  exact extractFromResponse_primary fields v hget hnn

/-- Witness for C1 on a concrete envelope carrying both keys: the primary
payload is returned and the garbage fallback string is ignored. -/
theorem C1_primary_identity_witness :
    extract "\x7b\"structured_output\": \x7b\"meals\": []\x7d, \"result\": \"junk\"\x7d"
      = Except.ok (JsonVal.obj [("meals", JsonVal.arr [])]) :=
  C1_primary_identity _
    [("structured_output", JsonVal.obj [("meals", JsonVal.arr [])]),
     ("result", JsonVal.str "junk")]
    _ rfl rfl (fun h => nomatch h)

/-- C2: when the primary key is absent, a `"result"` value that is a
non-empty JSON-encoded string parsing to an object yields that parsed
object, and a `"result"` value that is already a JSON object is returned
directly. -/
theorem C2_fallback_extraction :
    (∀ (s s2 : String) (fields o : List (String × JsonVal)),
        json_loads s = some (JsonVal.obj fields) →
        dictGet fields "structured_output" = none →
        dictGet fields "result" = some (JsonVal.str s2) →
        pyStripNonempty s2 = true →
        json_loads s2 = some (JsonVal.obj o) →
        extract s = Except.ok (JsonVal.obj o))
    ∧ (∀ (s : String) (fields o : List (String × JsonVal)),
        json_loads s = some (JsonVal.obj fields) →
        dictGet fields "structured_output" = none →
        dictGet fields "result" = some (JsonVal.obj o) →
        extract s = Except.ok (JsonVal.obj o)) := by
  constructor
  · intro s s2 fields o hparse hprim hres hstrip hnested
    rw [extract_obj s fields hparse,
        extractFromResponse_no_primary fields (by rw [hprim]; rfl)]
    have hf : fallbackResult (dictGet fields "result") = some (JsonVal.obj o) := by
      rw [hres]
      simp only [fallbackResult]
      rw [hstrip, hnested]
      rfl
    rw [hf]
  · intro s fields o hparse hprim hres
    rw [extract_obj s fields hparse,
        extractFromResponse_no_primary fields (by rw [hprim]; rfl)]
    have hf : fallbackResult (dictGet fields "result") = some (JsonVal.obj o) := by
      rw [hres]
      rfl
    rw [hf]

/-- Witness for C2: the two fallback shapes on concrete envelopes. -/
theorem C2_fallback_extraction_witness :
    extract "\x7b\"result\": \"\x7b\\\"meals\\\": []\x7d\"\x7d"
        = Except.ok (JsonVal.obj [("meals", JsonVal.arr [])])
    ∧ extract "\x7b\"result\": \x7b\"meals\": []\x7d\x7d"
        = Except.ok (JsonVal.obj [("meals", JsonVal.arr [])]) :=
  ⟨C2_fallback_extraction.1 _ "\x7b\"meals\": []\x7d"
      [("result", JsonVal.str "\x7b\"meals\": []\x7d")] [("meals", JsonVal.arr [])]
      rfl rfl rfl rfl rfl,
   C2_fallback_extraction.2 _
      [("result", JsonVal.obj [("meals", JsonVal.arr [])])] [("meals", JsonVal.arr [])]
      rfl rfl rfl⟩

/-- C3: when the primary key is absent and the secondary key is absent,
empty (whitespace-only), or a string that fails the nested parse,
`call_claude` raises the distinct missing-payload error listing exactly the
top-level keys of the parsed envelope. -/
theorem C3_missing_payload_diagnostic (s : String) (fields : List (String × JsonVal))
    (hparse : json_loads s = some (JsonVal.obj fields))
    (hprim : dictGet fields "structured_output" = none)
    (hsec : dictGet fields "result" = none
        ∨ (∃ s2, dictGet fields "result" = some (JsonVal.str s2) ∧ pyStripNonempty s2 = false)
        ∨ (∃ s2, dictGet fields "result" = some (JsonVal.str s2) ∧ json_loads s2 = none)) :
    extract s = Except.error (CallError.noStructuredOutput (fields.map Prod.fst)) := by
  rw [extract_obj s fields hparse,
      extractFromResponse_no_primary fields (by rw [hprim]; rfl)]
  have hf : fallbackResult (dictGet fields "result") = none := by
    rcases hsec with h | ⟨s2, h, hstr⟩ | ⟨s2, h, hload⟩
    · rw [h]; rfl
    · rw [h]
      simp only [fallbackResult]
      rw [hstr]
      rfl
    · rw [h]
      simp only [fallbackResult]
      cases hb : pyStripNonempty s2
      · rfl
      · rw [hload]; rfl
  rw [hf]

/-- Witness for C3 on a concrete envelope whose fallback string is not
JSON: the error lists the keys `type` and `result`. -/
theorem C3_missing_payload_diagnostic_witness :
    extract "\x7b\"type\": \"text\", \"result\": \"not json\"\x7d"
      = Except.error (CallError.noStructuredOutput ["type", "result"]) :=
  C3_missing_payload_diagnostic _
    [("type", JsonVal.str "text"), ("result", JsonVal.str "not json")]
    rfl rfl (Or.inr (Or.inr ⟨"not json", rfl, rfl⟩))

/-- C4: stdout text that is not valid JSON makes `call_claude` fail with the
JSON-parse error, before any key lookup and with no fallback attempted. -/
theorem C4_top_level_parse_failure (s : String) (h : json_loads s = none) :
    extract s = Except.error CallError.jsonParseError := by
  unfold extract
  rw [h]

/-- Witness for C4 on the spec's own scenario `stdout = not json`. -/
theorem C4_top_level_parse_failure_witness :
    extract "not json" = Except.error CallError.jsonParseError :=
  C4_top_level_parse_failure "not json" rfl

/-- C5: on timeout expiry, `call_claude` kills the process, joins both
reader threads under the 5-second grace period, logs the partial stdout and
partial stderr truncated to 500 characters at error severity, and re-raises
the timeout as a distinct failure (never converted into a successful or
empty result). -/
theorem C5_timeout_handling (chunks lines : List String) :
    Action.killProcess ∈ (callClaudeAfterWait WaitResult.timedOut chunks lines).1
    ∧ Action.joinThread "stdout" (some 5) ∈ (callClaudeAfterWait WaitResult.timedOut chunks lines).1
    ∧ Action.joinThread "stderr" (some 5) ∈ (callClaudeAfterWait WaitResult.timedOut chunks lines).1
    ∧ Action.logError ("Claude CLI stdout before timeout: " ++ pyTake 500 (pyJoin "" chunks))
        ∈ (callClaudeAfterWait WaitResult.timedOut chunks lines).1
    ∧ Action.logError ("Claude CLI stderr before timeout: " ++ pyTake 500 (pyJoin " | " lines))
        ∈ (callClaudeAfterWait WaitResult.timedOut chunks lines).1
    ∧ (callClaudeAfterWait WaitResult.timedOut chunks lines).2
        = Except.error CallError.timeoutExpired := by
  refine ⟨?_, ?_, ?_, ?_, ?_, rfl⟩ <;> simp [callClaudeAfterWait]

/-- C6 counterexample: with exit code 1 and a single 511-character stderr
line, the raised failure carries the FIRST 500 characters of the joined
stderr, which differs from the truncated tail (the last 500 characters) the
claim describes. -/
theorem C6_counterexample :
    (callClaudeAfterWait (WaitResult.exited 1) []
        [String.mk (List.replicate 510 'a' ++ ['Z'])]).2
      = Except.error (CallError.exitCode 1 (String.mk (List.replicate 500 'a')))
    ∧ String.mk (List.replicate 500 'a')
        ≠ spec_tail_trunc 500 (pyJoin " " [String.mk (List.replicate 510 'a' ++ ['Z'])]) := by
  constructor
  · rfl
  · decide

/-- C6 amended: whenever the child exits within the timeout with a non-zero
code, `call_claude` raises a failure carrying that exit code and the first
500 characters (a truncated prefix, not a tail) of the space-joined captured
stderr, and does not attempt JSON parsing of stdout. -/
theorem C6_exit_code_failure (code : Int) (chunks lines : List String) (h : code ≠ 0) :
    (callClaudeAfterWait (WaitResult.exited code) chunks lines).2
        = Except.error (CallError.exitCode code (pyTake 500 (pyJoin " " lines)))
    ∧ Action.jsonParse ∉ (callClaudeAfterWait (WaitResult.exited code) chunks lines).1 := by
  constructor <;> simp [callClaudeAfterWait, h]

/-- Witness for the amended C6 at exit code 1. -/
theorem C6_exit_code_failure_witness :
    (callClaudeAfterWait (WaitResult.exited 1) ["x"] ["err"]).2
        = Except.error (CallError.exitCode 1 (pyTake 500 (pyJoin " " ["err"])))
    ∧ Action.jsonParse ∉ (callClaudeAfterWait (WaitResult.exited 1) ["x"] ["err"]).1 :=
  C6_exit_code_failure 1 ["x"] ["err"] (by decide)

/-- C8: `validate_meals` never fails and returns exactly the subsequence of
input elements carrying all three required fields, in their original order
(the count-mismatch warnings do not affect the returned value, which is the
pure field-completeness filter). -/
theorem C8_validator_filters (meals : List (List (String × JsonVal))) :
    validate_meals meals = meals.filter hasRequiredFields
    ∧ List.Sublist (validate_meals meals) meals := by
  refine ⟨validate_meals_eq_filter meals, ?_⟩
  rw [validate_meals_eq_filter meals]
  exact List.filter_sublist meals

/-- C9: `validate_meals` is idempotent on its returned value. -/
theorem C9_validator_idempotent (x : List (List (String × JsonVal))) :
    validate_meals (validate_meals x) = validate_meals x := by
  rw [validate_meals_eq_filter, validate_meals_eq_filter]
  exact List.filter_eq_self.mpr (fun a ha => List.of_mem_filter ha)

/-- C10: the fallback performs no type check on the nested parse — with the
primary key absent or null and the secondary key a non-empty string encoding
any non-null JSON value (number, list, string, boolean, ...), that value is
returned as the structured payload without error. -/
theorem C10_fallback_untyped (s s2 : String) (fields : List (String × JsonVal)) (v : JsonVal)
    (hparse : json_loads s = some (JsonVal.obj fields))
    (hprim : dictGet fields "structured_output" = none
        ∨ dictGet fields "structured_output" = some JsonVal.null)
    (hres : dictGet fields "result" = some (JsonVal.str s2))
    (hstrip : pyStripNonempty s2 = true)
    (hnested : json_loads s2 = some v)
    (hnn : v ≠ JsonVal.null) :
    extract s = Except.ok v := by
  have hnone : pyOpt (dictGet fields "structured_output") = none := by
    rcases hprim with h | h <;> rw [h] <;> rfl
  rw [extract_obj s fields hparse, extractFromResponse_no_primary fields hnone]
  have hf : fallbackResult (dictGet fields "result") = some v := by
    rw [hres]
    simp only [fallbackResult]
    rw [hstrip, hnested]
    simp only [if_true]
    exact pyOpt_some_of_ne_null v hnn
  rw [hf]

/-- Witness for C10: a null primary key plus a fallback string encoding the
bare number 7 yields the number as the payload. -/
theorem C10_fallback_untyped_witness :
    extract "\x7b\"structured_output\": null, \"result\": \"7\"\x7d"
      = Except.ok (JsonVal.num "7") :=
  C10_fallback_untyped _ "7"
    [("structured_output", JsonVal.null), ("result", JsonVal.str "7")] _
    rfl (Or.inr rfl) rfl rfl rfl (fun h => nomatch h)


/-! ## Lemmas for the environment builder -/

/-- String append acts as list append on the underlying characters. -/
theorem string_data_append (a b : String) : (a ++ b).data = a.data ++ b.data := by
  cases a
  cases b
  rfl

/-- A list is not a suffix of another when dropping to its length disagrees. -/
theorem not_suffix_of_drop_ne (b c : List Char)
    (h : c.drop (c.length - b.length) ≠ b) : ¬ b <:+ c := by
  intro hs
  rcases hs with ⟨t, ht⟩
  apply h
  subst ht
  rw [List.length_append, Nat.add_sub_cancel, List.drop_left]

/-- An appended string differs from any string its second part is no suffix of. -/
theorem append_ne_of_data (a b c : String) (h : ¬ b.data <:+ c.data) : a ++ b ≠ c := by
  intro he
  apply h
  refine ⟨a.data, ?_⟩
  rw [← string_data_append, he]

/-- The fixed required PATH list has no duplicates, for every home directory. -/
theorem required_paths_nodup (home : String) : (required_paths home).Nodup := by
  have hne : ∀ c ∈ ["/opt/homebrew/bin", "/opt/homebrew/sbin", "/usr/local/bin",
      "/usr/bin", "/bin", "/usr/sbin", "/sbin"], home ++ "/.local/bin" ≠ c := by
    intro c hc
    apply append_ne_of_data
    apply not_suffix_of_drop_ne
    fin_cases hc <;> decide
  unfold required_paths
  refine List.nodup_cons.mpr ⟨?_, by decide⟩
  intro hmem
  exact hne _ hmem rfl

/-- The reversed insertion loop prepends exactly the entries absent from the
initial list, in their original relative order. -/
theorem foldr_insert_absent (ps : List String) (acc : List String) (hnd : ps.Nodup) :
    ps.foldr (fun p ex => if p ∈ ex then ex else p :: ex) acc
      = ps.filter (fun p => !(decide (p ∈ acc))) ++ acc := by
  induction ps with
  | nil => simp
  | cons p ps ih =>
    rcases List.nodup_cons.mp hnd with ⟨hp, hnd2⟩
    rw [List.foldr_cons, ih hnd2]
    by_cases hpa : p ∈ acc
    · have hin : p ∈ ps.filter (fun q => !(decide (q ∈ acc))) ++ acc :=
        List.mem_append_right _ hpa
      rw [if_pos hin, List.filter_cons]
      have hb : (!(decide (p ∈ acc))) = false := by simp [hpa]
      rw [hb]
      simp
    · have hnin : p ∉ ps.filter (fun q => !(decide (q ∈ acc))) ++ acc := by
        intro hmem
        rcases List.mem_append.mp hmem with hL | hR
        · exact hp (List.mem_of_mem_filter hL)
        · exact hpa hR
      rw [if_neg hnin, List.filter_cons]
      have hb : (!(decide (p ∈ acc))) = true := by simp [hpa]
      rw [hb]
      simp

/-- Characterization of the PATH entry list built by `get_claude_env`: the
required directories missing from the inherited PATH are prepended, in the
fixed list's order, ahead of all inherited entries. -/
theorem claude_path_entries_eq (home : String) (env : List (String × String)) :
    claude_path_entries home env
      = (required_paths home).filter (fun p => !(decide (p ∈ inherited_path env)))
        ++ inherited_path env := by
  unfold claude_path_entries
  rw [List.foldl_reverse]
  exact foldr_insert_absent _ _ (required_paths_nodup home)

/-- Each required directory occurs in the final entry list exactly as often
as in the inherited PATH, or exactly once if it was absent. -/
theorem claude_path_entries_count (home : String) (env : List (String × String))
    (p : String) (hp : p ∈ required_paths home) :
    (claude_path_entries home env).count p
      = if p ∈ inherited_path env then (inherited_path env).count p else 1 := by
  rw [claude_path_entries_eq, List.count_append]
  by_cases hin : p ∈ inherited_path env
  · have hfz : ((required_paths home).filter
        (fun q => !(decide (q ∈ inherited_path env)))).count p = 0 := by
      rw [List.count_eq_zero]
      intro hmem
      have hb := List.of_mem_filter hmem
      simp [hin] at hb
    rw [hfz, if_pos hin, Nat.zero_add]
  · have hone : ((required_paths home).filter
        (fun q => !(decide (q ∈ inherited_path env)))).count p = 1 := by
      apply List.count_eq_one_of_mem
      · exact (required_paths_nodup home).filter _
      · exact List.mem_filter.mpr ⟨hp, by simp [hin]⟩
    have hz : (inherited_path env).count p = 0 := List.count_eq_zero.mpr hin
    rw [hone, hz, if_neg hin]

/-- Head-true step for `find?`, with the predicate passed positionally. -/
theorem find?_cons_true (p : String × String → Bool) (a : String × String)
    (l : List (String × String)) (h : p a = true) :
    (a :: l).find? p = some a := by
  rw [List.find?_cons_of_pos _ h]

/-- Head-false step for `find?`, with the predicate passed positionally. -/
theorem find?_cons_false (p : String × String → Bool) (a : String × String)
    (l : List (String × String)) (h : p a = false) :
    (a :: l).find? p = l.find? p := by
  rw [List.find?_cons_of_neg _ (by simp [h])]

/-- Removing a key makes its lookup fail. -/
theorem find?_key_filter_ne (env : List (String × String)) (k : String) :
    (env.filter (fun kv => !(kv.1 == k))).find? (fun kv => kv.1 == k) = none := by
  induction env with
  | nil => rfl
  | cons kv rest ih =>
    cases h : (kv.1 == k) with
    | true => simp [List.filter_cons, h, ih]
    | false => simp [List.filter_cons, h, ih]

/-- `envPop` removes the popped key from lookup. -/
theorem envGet_envPop_self (env : List (String × String)) (k : String) :
    envGet (envPop env k) k = none := by
  unfold envGet envPop
  rw [find?_key_filter_ne]
  rfl

/-- Lookup after in-place replacement finds the new value. -/
theorem find?_map_replace (env : List (String × String)) (k v : String)
    (hany : env.any (fun kv => kv.1 == k) = true) :
    (env.map (fun kv => if kv.1 == k then (k, v) else kv)).find? (fun kv => kv.1 == k)
      = some (k, v) := by
  induction env with
  | nil => simp at hany
  | cons kv rest ih =>
    cases h : (kv.1 == k) with
    | true =>
      simp only [List.map_cons, h, if_true]
      rw [List.find?_cons_of_pos]
      simp
    | false =>
      simp only [List.map_cons, h, if_false]
      rw [List.find?_cons_of_neg]
      · apply ih
        rw [List.any_cons, h] at hany
        simpa using hany
      · simp [h]

/-- Appending past an unsuccessful search continues in the second list. -/
theorem find?_append_none (l1 l2 : List (String × String))
    (p : String × String → Bool) (h : l1.find? p = none) :
    (l1 ++ l2).find? p = l2.find? p := by
  induction l1 with
  | nil => rfl
  | cons a rest ih =>
    cases hp : p a with
    | true =>
      rw [List.find?_cons_of_pos _ hp] at h
      cases h
    | false =>
      rw [List.find?_cons_of_neg _ (by simp [hp])] at h
      rw [List.cons_append, List.find?_cons_of_neg _ (by simp [hp])]
      exact ih h

/-- `envSet` makes the set key look up the new value. -/
theorem envGet_envSet_self (env : List (String × String)) (k v : String) :
    envGet (envSet env k v) k = some v := by
  unfold envSet
  cases hany : env.any (fun kv => kv.1 == k) with
  | true =>
    simp only [hany, if_true]
    unfold envGet
    rw [find?_map_replace env k v hany]
    rfl
  | false =>
    simp only [hany, Bool.false_eq_true, if_false]
    unfold envGet
    have hn : env.find? (fun kv => kv.1 == k) = none := by
      rw [List.find?_eq_none]
      intro x hx hteq
      have hax : env.any (fun kv => kv.1 == k) = true :=
        List.any_eq_true.mpr ⟨x, hx, hteq⟩
      rw [hany] at hax
      cases hax
    rw [find?_append_none env [(k, v)] _ hn,
        find?_cons_true (fun kv => kv.1 == k) (k, v) [] (by simp)]
    rfl

/-- `envPop` of a different key leaves a lookup unchanged. -/
theorem envGet_envPop_ne (env : List (String × String)) (k k2 : String) (h : k ≠ k2) :
    envGet (envPop env k2) k = envGet env k := by
  induction env with
  | nil => rfl
  | cons kv rest ih =>
    cases h2 : (kv.1 == k2) with
    | true =>
      have hk : (kv.1 == k) = false := by
        have he : kv.1 = k2 := eq_of_beq h2
        rw [he]
        exact beq_eq_false_iff_ne.mpr (Ne.symm h)
      have hdrop : envPop (kv :: rest) k2 = envPop rest k2 := by
        simp [envPop, List.filter_cons, h2]
      rw [hdrop, ih]
      unfold envGet
      rw [List.find?_cons_of_neg _ (by simp [hk])]
    | false =>
      have hkeep : envPop (kv :: rest) k2 = kv :: envPop rest k2 := by
        simp [envPop, List.filter_cons, h2]
      rw [hkeep]
      unfold envGet
      cases h3 : (kv.1 == k) with
      | true =>
        rw [find?_cons_true (fun kv => kv.1 == k) kv (envPop rest k2) h3,
            find?_cons_true (fun kv => kv.1 == k) kv rest h3]
      | false =>
        rw [find?_cons_false (fun kv => kv.1 == k) kv (envPop rest k2) h3,
            find?_cons_false (fun kv => kv.1 == k) kv rest h3]
        exact ih

/-- C7 counterexample: with inherited `PATH=/bin`, the earlier fixed-list
entry `/bin` ends up strictly later on the resulting search path than the
later fixed-list entry `/usr/sbin`, so earlier entries of the fixed list do
not in general take priority by being placed earliest. -/
theorem C7_counterexample :
    (required_paths "/home/u").findIdx (fun x => x == "/bin")
        < (required_paths "/home/u").findIdx (fun x => x == "/usr/sbin")
    ∧ (claude_path_entries "/home/u" [("PATH", "/bin")]).findIdx (fun x => x == "/usr/sbin")
        < (claude_path_entries "/home/u" [("PATH", "/bin")]).findIdx (fun x => x == "/bin") := by
  decide

/-- C7 amended: for every inherited environment, `get_claude_env` rebuilds
PATH so that every required directory is present, each absent required
directory is inserted exactly once and all of them are prepended ahead of
the inherited entries in the fixed list's relative order (directories
already on the inherited PATH keep their inherited positions and counts),
and the marker variable CLAUDECODE is removed. -/
theorem C7_env_builder (home : String) (env : List (String × String)) :
    envGet (get_claude_env home env) "PATH"
        = some (pyJoin ":" (claude_path_entries home env))
    ∧ claude_path_entries home env
        = (required_paths home).filter (fun p => !(decide (p ∈ inherited_path env)))
          ++ inherited_path env
    ∧ (∀ p ∈ required_paths home, p ∈ claude_path_entries home env)
    ∧ (∀ p ∈ required_paths home,
        (claude_path_entries home env).count p
          = if p ∈ inherited_path env then (inherited_path env).count p else 1)
    ∧ envGet (get_claude_env home env) "CLAUDECODE" = none := by
  refine ⟨?_, claude_path_entries_eq home env, ?_, ?_, ?_⟩
  · unfold get_claude_env
    rw [envGet_envPop_ne _ _ _ (by decide), envGet_envSet_self]
  · intro p hp
    rw [claude_path_entries_eq]
    by_cases hin : p ∈ inherited_path env
    · exact List.mem_append_right _ hin
    · exact List.mem_append_left _ (List.mem_filter.mpr ⟨hp, by simp [hin]⟩)
  · intro p hp
    exact claude_path_entries_count home env p hp
  · unfold get_claude_env
    exact envGet_envPop_self _ _

/-- Witness for the amended C7 at a concrete home and environment. -/
theorem C7_env_builder_witness :
    envGet (get_claude_env "/home/u" [("PATH", "/bin")]) "CLAUDECODE" = none :=
  (C7_env_builder "/home/u" [("PATH", "/bin")]).2.2.2.2

end MealPlanner
